import Mathlib

/-!
Verification of the SQL query-builder component of the repository
(`src/loaders/postgres/queries.py`) and the database-connection helper
(`src/connections/postgres.py`).

The psycopg2 `sql` module objects (`SQL`, `Identifier`, `Placeholder`,
`Composed`) are modelled as flat sequences of atoms: a psycopg2 `Composed`
tree renders (`as_string`) as the concatenation of its leaves, and joining
with a separator is list interspersion, so a statement is represented by
the flattened list of its leaf atoms, in order.  Python exceptions are
modelled by an explicit error type and fallible operations return
`Except`.  Python values that may or may not be strings (the `table`
argument, the elements of `columns`) are modelled by `PyVal`; the value
passed as the `limit` argument of `query_get_data` is modelled by
`PyLimit` (`None`, an `int`, or a value of some other type).
-/

/-- A leaf of a psycopg2 `Composed` object: `sql.SQL` (raw snippet),
`sql.Identifier` (a quoted identifier) or `sql.Placeholder` (a named
parameter placeholder `%(name)s`). -/
inductive SqlAtom where
  | raw : String → SqlAtom
  | ident : String → SqlAtom
  | placeholder : String → SqlAtom
deriving DecidableEq

/-- A composed SQL statement, as the ordered flat list of its atoms. -/
abbrev Stmt := List SqlAtom

/-- Python exceptions raised by the modelled code. -/
inductive PyErr where
  | typeError : String → PyErr
  | valueError : String → PyErr
  | attributeError : String → PyErr
  | indexError : String → PyErr
deriving DecidableEq

/-- A Python value that is either a string or a value of some other type
(recorded by the name of that type). -/
inductive PyVal where
  | pystr : String → PyVal
  | pyother : String → PyVal
deriving DecidableEq

/-- The value supplied for `query_get_data`'s `limit` parameter:
`None`, an `int`, or a value of any other type. -/
inductive PyLimit where
  | none : PyLimit
  | int : Int → PyLimit
  | other : String → PyLimit
deriving DecidableEq

/-- Whether a `PyVal` is a Python string (`isinstance(v, str)`). -/
def isPyStr : PyVal → Bool
  | .pystr _ => true
  | .pyother _ => false

/-- Identifier escaping used by psycopg2's `Identifier.as_string`:
every embedded double quote is doubled. -/
def escChars : List Char → List Char
  | [] => []
  | c :: rest => if c = '"' then '"' :: '"' :: escChars rest else c :: escChars rest

/-- String form of `escChars`. -/
def escapeIdent (s : String) : String := String.mk (escChars s.data)

/-- Rendering (`as_string`) of a single atom: raw SQL verbatim,
identifiers wrapped in double quotes with embedded quotes doubled,
placeholders as `%(name)s`. -/
def renderAtom : SqlAtom → String
  | .raw s => s
  | .ident s => "\"" ++ escapeIdent s ++ "\""
  | .placeholder n => "%(" ++ n ++ ")s"

/-- Rendering (`as_string`) of a composed statement: concatenation of the
renderings of its atoms. -/
def renderStmt : Stmt → String
  | [] => ""
  | a :: rest => renderAtom a ++ renderStmt rest

/-- psycopg2 `SQL.join`: intersperse the separator between the joined
parts (each part given as its flat atom list). -/
def sqlJoin (sep : SqlAtom) : List Stmt → Stmt
  | [] => []
  | [x] => x
  | x :: y :: rest => x ++ sep :: sqlJoin sep (y :: rest)

/-- psycopg2 `sql.Identifier(v)`: requires a Python string, otherwise
raises `TypeError`. -/
def mkIdentifier : PyVal → Except PyErr SqlAtom
  | .pystr s => Except.ok (SqlAtom.ident s)
  | .pyother _ => Except.error (PyErr.typeError "SQL identifier parts must be strings")

/-- psycopg2 `sql.Placeholder(v)`: requires a Python string (raising
`TypeError` otherwise) that does not contain a closing parenthesis
(raising `ValueError` otherwise). -/
def mkPlaceholder : PyVal → Except PyErr SqlAtom
  | .pystr s =>
      if ')' ∈ s.data then Except.error (PyErr.valueError ("invalid name: " ++ s))
      else Except.ok (SqlAtom.placeholder s)
  | .pyother ty =>
      Except.error (PyErr.typeError ("expected string or None as name, got " ++ ty))

/-- Left-to-right effectful map over a list, stopping at the first
error (the order in which psycopg2 constructors are forced when a
`map` is consumed by `SQL.join`). -/
def mapExcept (f : PyVal → Except PyErr SqlAtom) : List PyVal → Except PyErr (List SqlAtom)
  | [] => Except.ok []
  | a :: rest =>
    match f a with
    | Except.error e => Except.error e
    | Except.ok b =>
      match mapExcept f rest with
      | Except.error e => Except.error e
      | Except.ok bs => Except.ok (b :: bs)

/-- The tuple `pandas_types` of `auto_create_table`. -/
def pandas_types : List String :=
  ["object", "int64", "float64", "bool", "datetime64", "timedelta[ns]", "category"]

/-- The tuple `postgres_types` of `auto_create_table`. -/
def postgres_types : List String :=
  ["VARCHAR", "INT", "FLOAT", "BOOL", "TIMESTAMP", "INTERVAL", "ARRAY"]

/-- `postgres_types[pandas_types.index(tg)]`: the PostgreSQL keyword at
the position of the first occurrence of `tg` in `pandas_types` (only
used under the guard `tg ∈ pandas_types`). -/
def pgTypeOf (tg : String) : String :=
  match (pandas_types.zip postgres_types).find? (fun p => p.fst == tg) with
  | some p => p.snd
  | none => ""

/-- The type-tag-to-keyword correspondence exactly as the spec lists it
(text→VARCHAR, integer→INT, floating-point→FLOAT, boolean→BOOL,
timestamp→TIMESTAMP, interval→INTERVAL, array→ARRAY), keyed by the
source's pandas tag names (the interval tag is spelled `timedelta[ns]`
in the source's vocabulary).  Used to compare the code's lookup against
the spec's stated mapping. -/
def specTypeMap : String → Option String
  | "object" => some "VARCHAR"
  | "int64" => some "INT"
  | "float64" => some "FLOAT"
  | "bool" => some "BOOL"
  | "datetime64" => some "TIMESTAMP"
  | "timedelta[ns]" => some "INTERVAL"
  | "category" => some "ARRAY"
  | _ => none

/-- The loop of `auto_create_table` building `cols_types`: for each
position, first the membership test `types[i] in pandas_types` (raising
`TypeError` naming the tag when it fails), then `columns[i]`
(raising `IndexError` when columns is shorter) wrapped in
`sql.Identifier`, paired with the mapped keyword. -/
def colsTypesLoop : List PyVal → List String → Except PyErr (List Stmt)
  | _, [] => Except.ok []
  | cols, tg :: ts =>
    if tg ∈ pandas_types then
      match cols with
      | [] => Except.error (PyErr.indexError "index out of bounds")
      | c :: cs =>
        match mkIdentifier c with
        | Except.error e => Except.error e
        | Except.ok ci =>
          match colsTypesLoop cs ts with
          | Except.error e => Except.error e
          | Except.ok rest =>
              Except.ok ([ci, SqlAtom.raw " ", SqlAtom.raw (pgTypeOf tg)] :: rest)
    else Except.error (PyErr.typeError (tg ++ " is not a supported pandas type."))

/-- `auto_create_table(table, columns, types)`: after the argument-type
guard on `table` (the guard's `columns`/`types` isinstance checks are
satisfied by construction, since the model supplies them as sequences),
builds `CREATE TABLE IF NOT EXISTS {table} ({columns})` with the
column/type pairs joined by `", "`. -/
def auto_create_table (table : PyVal) (columns : List PyVal) (types : List String) :
    Except PyErr Stmt :=
  match table with
  | .pyother _ =>
      Except.error (PyErr.typeError
        "Required types: table => python string; columns => pandas Index; types => pandas Series")
  | .pystr t =>
    match colsTypesLoop columns types with
    | Except.error e => Except.error e
    | Except.ok ct =>
        Except.ok ([SqlAtom.raw "CREATE TABLE IF NOT EXISTS ", SqlAtom.ident t, SqlAtom.raw " ("]
          ++ sqlJoin (SqlAtom.raw ", ") ct ++ [SqlAtom.raw ")"])

/-- `query_insert_data(table, columns)`: after the argument-type guard on
`table`, builds `INSERT INTO {table} ({columns}) VALUES ({values})`, the
column identifiers and the per-column named placeholders each joined by
`", "`; the identifier map is forced before the placeholder map. -/
def query_insert_data (table : PyVal) (columns : List PyVal) : Except PyErr Stmt :=
  match table with
  | .pyother _ =>
      Except.error (PyErr.typeError
        "Expected table to be type string and columns of type list, tuple, or pandas Index.")
  | .pystr t =>
    match mapExcept mkIdentifier columns with
    | Except.error e => Except.error e
    | Except.ok colIds =>
      match mapExcept mkPlaceholder columns with
      | Except.error e => Except.error e
      | Except.ok valPhs =>
          Except.ok ([SqlAtom.raw "INSERT INTO ", SqlAtom.ident t, SqlAtom.raw " ("]
            ++ sqlJoin (SqlAtom.raw ", ") (colIds.map (fun a => [a]))
            ++ [SqlAtom.raw ") VALUES ("]
            ++ sqlJoin (SqlAtom.raw ", ") (valPhs.map (fun a => [a]))
            ++ [SqlAtom.raw ")"])

/-- `query_get_data(table, columns, limit)`: after the argument-type
guard on `table`, the limit is examined: `None` is replaced by the
string `" * "`, a non-`int` raises `TypeError`, and an `int` is kept;
then `SELECT {columns} FROM {table} LIMIT {return_limit}` is built with
`str(limit)` spliced as raw SQL. -/
def query_get_data (table : PyVal) (columns : List PyVal) (limit : PyLimit) :
    Except PyErr Stmt :=
  match table with
  | .pyother _ =>
      Except.error (PyErr.typeError
        "Expected table to be type string and columns of type list, tuple, or pandas Index.")
  | .pystr t =>
    match limit with
    | .other ty =>
        Except.error (PyErr.typeError
          ("Variable limit must be an integer. Received limit: " ++ ty ++ "."))
    | lim =>
      match mapExcept mkIdentifier columns with
      | Except.error e => Except.error e
      | Except.ok colIds =>
          let limStr := match lim with
            | .none => " * "
            | .int i => toString i
            | .other _ => ""
          Except.ok ([SqlAtom.raw "SELECT "]
            ++ sqlJoin (SqlAtom.raw ", ") (colIds.map (fun a => [a]))
            ++ [SqlAtom.raw " FROM ", SqlAtom.ident t, SqlAtom.raw " LIMIT ",
                SqlAtom.raw limStr])

/-- The placeholder names occurring in a statement, in order. -/
def placeholdersOf (l : Stmt) : List String :=
  l.filterMap (fun a => match a with | SqlAtom.placeholder n => some n | _ => none)

/-- The identifier names occurring in a statement, in order. -/
def identsOf (l : Stmt) : List String :=
  l.filterMap (fun a => match a with | SqlAtom.ident n => some n | _ => none)

/-- Number of start positions at which `p` occurs in the character
list. -/
def countAux (p : List Char) : List Char → Nat
  | [] => 0
  | c :: rest => (if p.isPrefixOf (c :: rest) then 1 else 0) + countAux p rest

/-- Number of occurrences of the pattern `pat` in the string `s`. -/
def substrCount (s pat : String) : Nat := countAux pat.data s.data

/-- Drop every double-quote character from a string (used to compare a
rendered statement with a golden literal modulo identifier quoting). -/
def stripQuotes (s : String) : String := String.mk (s.data.filter (fun c => c ≠ '"'))

/-- A Python value arising inside `connect_to_database`: the boolean
initially bound to the local `conn`, an open psycopg2 connection, or a
cursor object. -/
inductive PgVal where
  | pyBool : Bool → PgVal
  | pgConnection : PgVal
  | pgCursor : PgVal
deriving DecidableEq

/-- `connect_to_database(conn, cursor)` from `src/connections/postgres.py`.
The external `psycopg2.connect(...)` call is modelled as succeeding and
returning an opaque live connection (the driver is an out-of-scope
collaborator).  When the `conn` flag is true the local variable is
rebound to the connection, otherwise it keeps the boolean `False`.  When
the `cursor` flag is true the code evaluates `conn.cursor()` (an
`AttributeError` when the local still holds the boolean) and then
`tuple(conn, conn.cursor())`, which raises `TypeError` because `tuple`
accepts at most one positional argument; when the `cursor` flag is false
it evaluates `tuple(conn)`, a `TypeError` since neither possible value
of the local is iterable. -/
def connect_to_database (conn : Bool) (cursor : Bool) : Except PyErr (List PgVal) :=
  let connVal : PgVal := if conn then PgVal.pgConnection else PgVal.pyBool false
  if cursor then
    match connVal with
    | PgVal.pgConnection =>
        Except.error (PyErr.typeError "tuple expected at most 1 argument, got 2")
    | _ =>
        Except.error (PyErr.attributeError
          "\x27bool\x27 object has no attribute \x27cursor\x27")
  else
    match connVal with
    | PgVal.pgConnection =>
        Except.error (PyErr.typeError
          "\x27psycopg2.extensions.connection\x27 object is not iterable")
    | _ => Except.error (PyErr.typeError "\x27bool\x27 object is not iterable")

/-- Whether a modelled call outcome is a raised `TypeError`. -/
def raisesTypeError {α : Type} : Except PyErr α → Bool
  | Except.error (PyErr.typeError _) => true
  | _ => false

instance {ε α : Type} [DecidableEq ε] [DecidableEq α] : DecidableEq (Except ε α) := fun x y =>
  match x, y with
  | .ok a, .ok b =>
      if h : a = b then isTrue (by rw [h])
      else isFalse (by intro hc; injection hc; exact h (by assumption))
  | .error e, .error f =>
      if h : e = f then isTrue (by rw [h])
      else isFalse (by intro hc; injection hc; exact h (by assumption))
  | .ok _, .error _ => isFalse (by intro hc; exact Except.noConfusion hc)
  | .error _, .ok _ => isFalse (by intro hc; exact Except.noConfusion hc)

/-- C4: the statement built by `auto_create_table` for table `t`,
columns `id`, `name` and types `int64` (integer), `object` (text)
renders exactly as the golden literal with each identifier
double-quoted (psycopg2's identifier-quoting style), and equals the
spec's unquoted golden literal once that quoting is stripped. -/
theorem create_table_golden_literal :
    (auto_create_table (PyVal.pystr "t") [PyVal.pystr "id", PyVal.pystr "name"]
      ["int64", "object"]).map renderStmt =
      Except.ok "CREATE TABLE IF NOT EXISTS \"t\" (\"id\" INT, \"name\" VARCHAR)" ∧
    stripQuotes "CREATE TABLE IF NOT EXISTS \"t\" (\"id\" INT, \"name\" VARCHAR)" =
      "CREATE TABLE IF NOT EXISTS t (id INT, name VARCHAR)" :=
  ⟨by decide, by decide⟩

/-- C7: a non-string `table` argument makes each of the three builders
fail with a `TypeError` (the code's `InvalidArgument`) from the initial
argument guard, before any statement is built; no statement is ever
returned alongside the error. -/
theorem nonstring_table_rejected (ty : String) (cols : List PyVal)
    (types : List String) (lim : PyLimit) :
    (∃ m, auto_create_table (PyVal.pyother ty) cols types =
        Except.error (PyErr.typeError m)) ∧
    (∃ m, query_insert_data (PyVal.pyother ty) cols =
        Except.error (PyErr.typeError m)) ∧
    (∃ m, query_get_data (PyVal.pyother ty) cols lim =
        Except.error (PyErr.typeError m)) :=
  ⟨⟨_, rfl⟩, ⟨_, rfl⟩, ⟨_, rfl⟩⟩

/-- C9: the three builders are deterministic pure functions: identical
arguments yield identical results (statement text or error). -/
theorem builders_deterministic (t₁ t₂ : PyVal) (c₁ c₂ : List PyVal)
    (ty₁ ty₂ : List String) (l₁ l₂ : PyLimit)
    (ht : t₁ = t₂) (hc : c₁ = c₂) (hty : ty₁ = ty₂) (hl : l₁ = l₂) :
    auto_create_table t₁ c₁ ty₁ = auto_create_table t₂ c₂ ty₂ ∧
    query_insert_data t₁ c₁ = query_insert_data t₂ c₂ ∧
    query_get_data t₁ c₁ l₁ = query_get_data t₂ c₂ l₂ := by
  subst ht; subst hc; subst hty; subst hl
  exact ⟨rfl, rfl, rfl⟩

/-- Witness for C9 at concrete arguments. -/
theorem builders_deterministic_witness :
    auto_create_table (PyVal.pystr "t") [PyVal.pystr "a"] ["int64"] =
      auto_create_table (PyVal.pystr "t") [PyVal.pystr "a"] ["int64"] ∧
    query_insert_data (PyVal.pystr "t") [PyVal.pystr "a"] =
      query_insert_data (PyVal.pystr "t") [PyVal.pystr "a"] ∧
    query_get_data (PyVal.pystr "t") [PyVal.pystr "a"] (PyLimit.int 10) =
      query_get_data (PyVal.pystr "t") [PyVal.pystr "a"] (PyLimit.int 10) :=
  builders_deterministic _ _ _ _ _ _ _ _ rfl rfl rfl rfl

/-- C10 counterexample: with `conn=False, cursor=True` the call raises
`AttributeError` (the boolean `False` has no `cursor` attribute, and it
is evaluated before the final tuple construction), not `TypeError`,
refuting the claim that every `cursor=True` call raises `TypeError`. -/
theorem connect_false_true_not_typeerror :
    connect_to_database false true =
      Except.error (PyErr.attributeError
        "\x27bool\x27 object has no attribute \x27cursor\x27") ∧
    raisesTypeError (connect_to_database false true) = false :=
  ⟨rfl, rfl⟩

/-- C10 amended: with `cursor=True` the function never returns
normally: it raises `TypeError` from the two-argument `tuple(...)` call
when `conn=True` (so the connection is constructed), and
`AttributeError` from `False.cursor()` when `conn=False`. -/
theorem connect_cursor_never_returns :
    connect_to_database true true =
      Except.error (PyErr.typeError "tuple expected at most 1 argument, got 2") ∧
    connect_to_database false true =
      Except.error (PyErr.attributeError
        "\x27bool\x27 object has no attribute \x27cursor\x27") :=
  ⟨rfl, rfl⟩

/-- C1 counterexample: with `limit=None` on table `t`, columns `a`, `b`,
the built statement does not omit the LIMIT clause; it renders with a
trailing `LIMIT  * ` (the sentinel is replaced by the string `' * '`),
so `LIMIT` occurs once rather than zero times. -/
theorem select_none_has_limit_clause :
    (query_get_data (PyVal.pystr "t") [PyVal.pystr "a", PyVal.pystr "b"]
      PyLimit.none).map renderStmt =
      Except.ok "SELECT \"a\", \"b\" FROM \"t\" LIMIT  * " ∧
    substrCount "SELECT \"a\", \"b\" FROM \"t\" LIMIT  * " "LIMIT" = 1 :=
  ⟨by decide, by decide⟩

/-- C3 counterexample: a negative integer limit is accepted (Python's
`isinstance(limit, int)` holds), and a statement is returned with the
negative value spliced after `LIMIT`, refuting the claim that a
negative limit fails with an error. -/
theorem select_negative_limit_accepted :
    (query_get_data (PyVal.pystr "t") [PyVal.pystr "a"] (PyLimit.int (-5))).map renderStmt =
      Except.ok "SELECT \"a\" FROM \"t\" LIMIT -5" := by decide

/-- C2 counterexample: for column `colx` with unsupported tag `weird`,
the raised error message names the tag but not the offending column
(`colx` does not occur in the message), refuting the claim that the
error names both. -/
theorem create_table_error_omits_column :
    auto_create_table (PyVal.pystr "t") [PyVal.pystr "colx"] ["weird"] =
      Except.error (PyErr.typeError "weird is not a supported pandas type.") ∧
    substrCount "weird is not a supported pandas type." "colx" = 0 :=
  ⟨by decide, by decide⟩

/-- Mapping `sql.Identifier` over all-string columns succeeds and yields
the identifiers in order. -/
theorem mapExcept_mkIdentifier_strings (cols : List String) :
    mapExcept mkIdentifier (cols.map PyVal.pystr) =
      Except.ok (cols.map SqlAtom.ident) := by
  induction cols with
  | nil => rfl
  | cons c rest ih => simp [mapExcept, mkIdentifier, ih]

/-- Mapping `sql.Placeholder` over all-string columns without closing
parentheses succeeds and yields the named placeholders in order. -/
theorem mapExcept_mkPlaceholder_strings (cols : List String)
    (h : ∀ c ∈ cols, ')' ∉ c.data) :
    mapExcept mkPlaceholder (cols.map PyVal.pystr) =
      Except.ok (cols.map SqlAtom.placeholder) := by
  induction cols with
  | nil => rfl
  | cons c rest ih =>
    have hc : ')' ∉ c.data := h c (List.mem_cons_self _ _)
    have hrest : ∀ x ∈ rest, ')' ∉ x.data := fun x hx => h x (List.mem_cons_of_mem _ hx)
    simp [mapExcept, mkPlaceholder, hc, ih hrest]

/-- Rendering distributes over statement concatenation, at the level of
character data. -/
theorem renderStmt_data_append (l₁ l₂ : Stmt) :
    (renderStmt (l₁ ++ l₂)).data = (renderStmt l₁).data ++ (renderStmt l₂).data := by
  induction l₁ with
  | nil => rfl
  | cons a rest ih => simp [renderStmt, String.data_append, ih]

/-- The placeholder names of a `", "`-join of per-column placeholders
are exactly the column names, in order. -/
theorem placeholdersOf_join_ph (cols : List String) :
    placeholdersOf (sqlJoin (SqlAtom.raw ", ")
      (cols.map (fun c => [SqlAtom.placeholder c]))) = cols := by
  induction cols with
  | nil => rfl
  | cons c rest ih =>
    cases rest with
    | nil => rfl
    | cons d rest2 =>
      simp only [List.map_cons, sqlJoin, placeholdersOf, List.filterMap] at ih ⊢
      simpa using ih

/-- A `", "`-join of per-column identifiers contains no placeholders. -/
theorem placeholdersOf_join_id (cols : List String) :
    placeholdersOf (sqlJoin (SqlAtom.raw ", ")
      (cols.map (fun c => [SqlAtom.ident c]))) = [] := by
  induction cols with
  | nil => rfl
  | cons c rest ih =>
    cases rest with
    | nil => rfl
    | cons d rest2 =>
      simp only [List.map_cons, sqlJoin, placeholdersOf, List.filterMap] at ih ⊢
      simpa using ih

/-- The identifier names of a `", "`-join of per-column identifiers are
exactly the column names, in order. -/
theorem identsOf_join_id (cols : List String) :
    identsOf (sqlJoin (SqlAtom.raw ", ")
      (cols.map (fun c => [SqlAtom.ident c]))) = cols := by
  induction cols with
  | nil => rfl
  | cons c rest ih =>
    cases rest with
    | nil => rfl
    | cons d rest2 =>
      simp only [List.map_cons, sqlJoin, identsOf, List.filterMap] at ih ⊢
      simpa using ih

/-- A `", "`-join of per-column placeholders contains no identifiers. -/
theorem identsOf_join_ph (cols : List String) :
    identsOf (sqlJoin (SqlAtom.raw ", ")
      (cols.map (fun c => [SqlAtom.placeholder c]))) = [] := by
  induction cols with
  | nil => rfl
  | cons c rest ih =>
    cases rest with
    | nil => rfl
    | cons d rest2 =>
      simp only [List.map_cons, sqlJoin, identsOf, List.filterMap] at ih ⊢
      simpa using ih

/-- Placeholder extraction distributes over statement concatenation. -/
theorem placeholdersOf_append (l₁ l₂ : Stmt) :
    placeholdersOf (l₁ ++ l₂) = placeholdersOf l₁ ++ placeholdersOf l₂ := by
  simp [placeholdersOf]

/-- Identifier extraction distributes over statement concatenation. -/
theorem identsOf_append (l₁ l₂ : Stmt) :
    identsOf (l₁ ++ l₂) = identsOf l₁ ++ identsOf l₂ := by
  simp [identsOf]

/-- Shape of `query_insert_data` on a string table and all-string
columns free of closing parentheses. -/
theorem query_insert_data_strings (t : String) (cols : List String)
    (hpar : ∀ c ∈ cols, ')' ∉ c.data) :
    query_insert_data (PyVal.pystr t) (cols.map PyVal.pystr) =
      Except.ok ([SqlAtom.raw "INSERT INTO ", SqlAtom.ident t, SqlAtom.raw " ("]
        ++ sqlJoin (SqlAtom.raw ", ") (cols.map (fun c => [SqlAtom.ident c]))
        ++ [SqlAtom.raw ") VALUES ("]
        ++ sqlJoin (SqlAtom.raw ", ") (cols.map (fun c => [SqlAtom.placeholder c]))
        ++ [SqlAtom.raw ")"]) := by
  simp [query_insert_data, mapExcept_mkIdentifier_strings,
    mapExcept_mkPlaceholder_strings cols hpar, List.map_map, Function.comp_def]

/-- The placeholders of the insert statement shape are the columns. -/
theorem placeholders_insert_shape (t : String) (cols : List String) :
    placeholdersOf ([SqlAtom.raw "INSERT INTO ", SqlAtom.ident t, SqlAtom.raw " ("]
      ++ sqlJoin (SqlAtom.raw ", ") (cols.map (fun c => [SqlAtom.ident c]))
      ++ [SqlAtom.raw ") VALUES ("]
      ++ sqlJoin (SqlAtom.raw ", ") (cols.map (fun c => [SqlAtom.placeholder c]))
      ++ [SqlAtom.raw ")"]) = cols := by
  rw [placeholdersOf_append, placeholdersOf_append, placeholdersOf_append,
    placeholdersOf_append, placeholdersOf_join_id, placeholdersOf_join_ph]
  simp [placeholdersOf]

/-- The identifiers of the insert statement shape are the table then the
columns. -/
theorem idents_insert_shape (t : String) (cols : List String) :
    identsOf ([SqlAtom.raw "INSERT INTO ", SqlAtom.ident t, SqlAtom.raw " ("]
      ++ sqlJoin (SqlAtom.raw ", ") (cols.map (fun c => [SqlAtom.ident c]))
      ++ [SqlAtom.raw ") VALUES ("]
      ++ sqlJoin (SqlAtom.raw ", ") (cols.map (fun c => [SqlAtom.placeholder c]))
      ++ [SqlAtom.raw ")"]) = t :: cols := by
  rw [identsOf_append, identsOf_append, identsOf_append,
    identsOf_append, identsOf_join_id, identsOf_join_ph]
  simp [identsOf]

/-- C6: for a string table and a non-empty sequence of unique
parenthesis-free column names, `query_insert_data` returns a statement
whose named placeholders are exactly the columns, in the order of the
column list (hence exactly one placeholder per column, named after it),
and whose identifiers are the table followed by the columns in order. -/
theorem insert_placeholder_per_column (t : String) (cols : List String)
    (hne : cols ≠ []) (hnd : cols.Nodup) (hpar : ∀ c ∈ cols, ')' ∉ c.data) :
    ∃ q, query_insert_data (PyVal.pystr t) (cols.map PyVal.pystr) = Except.ok q ∧
      placeholdersOf q = cols ∧ identsOf q = t :: cols ∧
      ∀ c ∈ cols, (placeholdersOf q).count c = 1 := by
  refine ⟨_, query_insert_data_strings t cols hpar,
    placeholders_insert_shape t cols, idents_insert_shape t cols, ?_⟩
  intro c hc
  rw [placeholders_insert_shape t cols]
  exact List.count_eq_one_of_mem hnd hc

/-- Witness for C6 at table `t`, columns `a`, `b`. -/
theorem insert_placeholder_per_column_witness :
    (["a", "b"] ≠ ([] : List String)) ∧ (["a", "b"] : List String).Nodup ∧
    (∀ c ∈ (["a", "b"] : List String), ')' ∉ c.data) ∧
    ∃ q, query_insert_data (PyVal.pystr "t") ((["a", "b"] : List String).map PyVal.pystr) =
        Except.ok q ∧
      placeholdersOf q = ["a", "b"] ∧ identsOf q = ["t", "a", "b"] ∧
      ∀ c ∈ (["a", "b"] : List String), (placeholdersOf q).count c = 1 :=
  ⟨by decide, by decide, by decide,
    insert_placeholder_per_column "t" ["a", "b"] (by decide) (by decide) (by decide)⟩

/-- Forcing `sql.Identifier` over a column list containing a non-string
element raises `TypeError` at the first such element. -/
theorem mapExcept_mkIdentifier_nonstring (cols : List PyVal)
    (h : ∃ x ∈ cols, isPyStr x = false) :
    ∃ m, mapExcept mkIdentifier cols = Except.error (PyErr.typeError m) := by
  induction cols with
  | nil =>
    rcases h with ⟨x, hx, _⟩
    cases hx
  | cons c rest ih =>
    cases c with
    | pystr s =>
      have hrest : ∃ x ∈ rest, isPyStr x = false := by
        rcases h with ⟨x, hx, hxs⟩
        rcases List.mem_cons.mp hx with h1 | h2
        · subst h1; cases hxs
        · exact ⟨x, h2, hxs⟩
      rcases ih hrest with ⟨m, hm⟩
      exact ⟨m, by simp [mapExcept, mkIdentifier, hm]⟩
    | pyother ty =>
      exact ⟨_, rfl⟩

/-- C8: a `columns` argument containing at least one non-string element
makes `query_insert_data` fail with a `TypeError` (the code's
`InvalidArgument`); no statement is returned. -/
theorem insert_nonstring_columns_rejected (t : PyVal) (cols : List PyVal)
    (h : ∃ x ∈ cols, isPyStr x = false) :
    ∃ m, query_insert_data t cols = Except.error (PyErr.typeError m) := by
  cases t with
  | pyother ty => exact ⟨_, rfl⟩
  | pystr s =>
    rcases mapExcept_mkIdentifier_nonstring cols h with ⟨m, hm⟩
    exact ⟨m, by simp [query_insert_data, hm]⟩

/-- Witness for C8: columns `a` and a non-string (an `int`). -/
theorem insert_nonstring_columns_rejected_witness :
    (∃ x ∈ [PyVal.pystr "a", PyVal.pyother "int"], isPyStr x = false) ∧
    ∃ m, query_insert_data (PyVal.pystr "t") [PyVal.pystr "a", PyVal.pyother "int"] =
      Except.error (PyErr.typeError m) :=
  ⟨by decide, insert_nonstring_columns_rejected _ _ (by decide)⟩

/-- The `cols_types` loop fails with a `TypeError` naming an offending
tag whenever some tag lies outside the `pandas_types` vocabulary (with
string columns parallel to the tags). -/
theorem colsTypesLoop_bad_tag (cols types : List String)
    (hlen : cols.length = types.length)
    (hbad : ∃ tg ∈ types, tg ∉ pandas_types) :
    ∃ tg, tg ∈ types ∧ tg ∉ pandas_types ∧
      colsTypesLoop (cols.map PyVal.pystr) types =
        Except.error (PyErr.typeError (tg ++ " is not a supported pandas type.")) := by
  induction types generalizing cols with
  | nil =>
    rcases hbad with ⟨tg, htg, _⟩
    cases htg
  | cons tg ts ih =>
    by_cases hmem : tg ∈ pandas_types
    · have hbad2 : ∃ x ∈ ts, x ∉ pandas_types := by
        rcases hbad with ⟨x, hx, hxn⟩
        rcases List.mem_cons.mp hx with h1 | h2
        · subst h1; exact absurd hmem hxn
        · exact ⟨x, h2, hxn⟩
      cases cols with
      | nil => simp at hlen
      | cons c cs =>
        have hlen2 : cs.length = ts.length := by simpa using hlen
        rcases ih cs hlen2 hbad2 with ⟨x, hx, hxn, hloop⟩
        refine ⟨x, List.mem_cons_of_mem _ hx, hxn, ?_⟩
        simp [colsTypesLoop, hmem, mkIdentifier, hloop]
    · refine ⟨tg, List.mem_cons_self _ _, hmem, ?_⟩
      rw [colsTypesLoop.eq_def]
      simp [hmem]

/-- C2 amended: whenever some type tag lies outside the fixed
vocabulary, `auto_create_table` (on a string table and string columns
parallel to the tags) fails with a `TypeError` whose message names the
offending tag, and no statement is returned; the message does not name
the offending column (see the counterexample). -/
theorem create_table_unsupported_tag (t : String) (cols types : List String)
    (hlen : cols.length = types.length)
    (hbad : ∃ tg ∈ types, tg ∉ pandas_types) :
    ∃ tg, tg ∈ types ∧ tg ∉ pandas_types ∧
      auto_create_table (PyVal.pystr t) (cols.map PyVal.pystr) types =
        Except.error (PyErr.typeError (tg ++ " is not a supported pandas type.")) := by
  rcases colsTypesLoop_bad_tag cols types hlen hbad with ⟨tg, h1, h2, hloop⟩
  exact ⟨tg, h1, h2, by simp [auto_create_table, hloop]⟩

/-- Witness for C2 (amended) at column `cw`, tag `weirdtag`. -/
theorem create_table_unsupported_tag_witness :
    ((["cw"] : List String).length = (["weirdtag"] : List String).length) ∧
    (∃ tg ∈ (["weirdtag"] : List String), tg ∉ pandas_types) ∧
    ∃ tg, tg ∈ (["weirdtag"] : List String) ∧ tg ∉ pandas_types ∧
      auto_create_table (PyVal.pystr "t") ((["cw"] : List String).map PyVal.pystr)
          ["weirdtag"] =
        Except.error (PyErr.typeError (tg ++ " is not a supported pandas type.")) :=
  ⟨by decide, by decide,
    create_table_unsupported_tag "t" ["cw"] ["weirdtag"] (by decide) (by decide)⟩

/-- C5: for every tag in the vocabulary, the code's lookup agrees with
the spec's stated tag-to-keyword mapping, and the built column clause
pairs the column's identifier with exactly that keyword. -/
theorem create_table_type_mapping (c tg : String) (h : tg ∈ pandas_types) :
    ∃ pg, specTypeMap tg = some pg ∧ pgTypeOf tg = pg ∧
      colsTypesLoop [PyVal.pystr c] [tg] =
        Except.ok [[SqlAtom.ident c, SqlAtom.raw " ", SqlAtom.raw pg]] := by
  simp [pandas_types] at h
  rcases h with h | h | h | h | h | h | h <;> subst h <;> exact ⟨_, rfl, rfl, rfl⟩

/-- Witness for C5 at tag `object`, column `x`. -/
theorem create_table_type_mapping_witness :
    ("object" ∈ pandas_types) ∧
    ∃ pg, specTypeMap "object" = some pg ∧ pgTypeOf "object" = pg ∧
      colsTypesLoop [PyVal.pystr "x"] ["object"] =
        Except.ok [[SqlAtom.ident "x", SqlAtom.raw " ", SqlAtom.raw pg]] :=
  ⟨by decide, create_table_type_mapping "x" "object" (by decide)⟩

/-- Shape of `query_get_data` on a string table, all-string columns and
an integer limit. -/
theorem query_get_data_int (t : String) (cols : List String) (i : Int) :
    query_get_data (PyVal.pystr t) (cols.map PyVal.pystr) (PyLimit.int i) =
      Except.ok ([SqlAtom.raw "SELECT "]
        ++ sqlJoin (SqlAtom.raw ", ") (cols.map (fun c => [SqlAtom.ident c]))
        ++ [SqlAtom.raw " FROM ", SqlAtom.ident t, SqlAtom.raw " LIMIT ",
            SqlAtom.raw (toString i)]) := by
  simp [query_get_data, mapExcept_mkIdentifier_strings, List.map_map, Function.comp_def]

/-- Shape of `query_get_data` on a string table, all-string columns and
the `None` limit: the sentinel is replaced by the raw string `" * "`. -/
theorem query_get_data_none (t : String) (cols : List String) :
    query_get_data (PyVal.pystr t) (cols.map PyVal.pystr) PyLimit.none =
      Except.ok ([SqlAtom.raw "SELECT "]
        ++ sqlJoin (SqlAtom.raw ", ") (cols.map (fun c => [SqlAtom.ident c]))
        ++ [SqlAtom.raw " FROM ", SqlAtom.ident t, SqlAtom.raw " LIMIT ",
            SqlAtom.raw " * "]) := by
  simp [query_get_data, mapExcept_mkIdentifier_strings, List.map_map, Function.comp_def]

/-- Character data of the rendered select statement, split before the
final `LIMIT` keyword. -/
theorem render_select_data (t : String) (cols : List String) (limRaw : String) :
    (renderStmt ([SqlAtom.raw "SELECT "]
      ++ sqlJoin (SqlAtom.raw ", ") (cols.map (fun c => [SqlAtom.ident c]))
      ++ [SqlAtom.raw " FROM ", SqlAtom.ident t, SqlAtom.raw " LIMIT ",
          SqlAtom.raw limRaw])).data
    = "SELECT ".data
      ++ ((renderStmt (sqlJoin (SqlAtom.raw ", ")
            (cols.map (fun c => [SqlAtom.ident c])))).data
        ++ (" FROM ".data ++ ('"' :: escChars t.data
          ++ ('"' :: ' ' :: ("LIMIT ".data ++ limRaw.data))))) := by
  have h1 : " FROM ".data = [' ', 'F', 'R', 'O', 'M', ' '] := rfl
  have h2 : " LIMIT ".data = [' ', 'L', 'I', 'M', 'I', 'T', ' '] := rfl
  have h3 : "LIMIT ".data = ['L', 'I', 'M', 'I', 'T', ' '] := rfl
  have h4 : "\"".data = ['"'] := rfl
  rw [renderStmt_data_append, renderStmt_data_append]
  simp [renderStmt, renderAtom, escapeIdent, String.data_append, h1, h2, h3, h4]

/-- Counting step when the pattern does not occur at the current
position. -/
theorem countAux_cons_false (p : List Char) (c : Char) (l : List Char)
    (h : p.isPrefixOf (c :: l) = false) :
    countAux p (c :: l) = countAux p l := by
  simp [countAux, h]

/-- No occurrence of `LIMIT 10` starts inside the fixed `SELECT `
heading. -/
theorem countAux_limitpat_select (Z : List Char) :
    countAux "LIMIT 10".data ("SELECT ".data ++ Z) = countAux "LIMIT 10".data Z := by
  show countAux "LIMIT 10".data
    ('S' :: 'E' :: 'L' :: 'E' :: 'C' :: 'T' :: ' ' :: Z) = countAux "LIMIT 10".data Z
  rw [countAux_cons_false "LIMIT 10".data 'S' ('E' :: 'L' :: 'E' :: 'C' :: 'T' :: ' ' :: Z) rfl,
    countAux_cons_false "LIMIT 10".data 'E' ('L' :: 'E' :: 'C' :: 'T' :: ' ' :: Z) rfl,
    countAux_cons_false "LIMIT 10".data 'L' ('E' :: 'C' :: 'T' :: ' ' :: Z) rfl,
    countAux_cons_false "LIMIT 10".data 'E' ('C' :: 'T' :: ' ' :: Z) rfl,
    countAux_cons_false "LIMIT 10".data 'C' ('T' :: ' ' :: Z) rfl,
    countAux_cons_false "LIMIT 10".data 'T' (' ' :: Z) rfl,
    countAux_cons_false "LIMIT 10".data ' ' Z rfl]

/-- No occurrence of a pattern with head `hd` can start inside a
segment avoiding `hd`: counting skips the segment. -/
theorem countAux_append_skip (p xs ys : List Char) (hd : Char)
    (hp : p.head? = some hd) (hxs : hd ∉ xs) :
    countAux p (xs ++ ys) = countAux p ys := by
  induction xs with
  | nil => rfl
  | cons x rest ih =>
    have hx : x ≠ hd := fun h => hxs (h ▸ List.mem_cons_self _ _)
    have hnp : p.isPrefixOf (x :: (rest ++ ys)) = false := by
      cases p with
      | nil => cases hp
      | cons q qs =>
        have hq : q = hd := by
          simp [List.head?] at hp
          exact hp
        subst hq
        simp [List.isPrefixOf]
        intro hqx
        exact absurd hqx.symm hx
    rw [List.cons_append, countAux_cons_false _ _ _ hnp]
    exact ih (fun h => hxs (List.mem_cons_of_mem _ h))

/-- In `SELECT <middle>LIMIT 10` with `L` absent from the middle, the
pattern `LIMIT 10` occurs exactly once. -/
theorem countAux_middle (M : List Char) (hM : 'L' ∉ M) :
    countAux "LIMIT 10".data ("SELECT ".data ++ (M ++ "LIMIT 10".data)) = 1 := by
  rw [countAux_limitpat_select,
    countAux_append_skip "LIMIT 10".data M "LIMIT 10".data 'L' rfl hM]
  decide

/-- Characters produced by identifier escaping are the double quote or
characters of the input. -/
theorem mem_escChars {ch : Char} {l : List Char} (h : ch ∈ escChars l) :
    ch = '"' ∨ ch ∈ l := by
  induction l with
  | nil => cases h
  | cons c rest ih =>
    by_cases hc : c = '"'
    · subst hc
      simp [escChars] at h
      rcases h with h | h
      · exact Or.inl h
      · rcases ih h with h2 | h2
        · exact Or.inl h2
        · exact Or.inr (List.mem_cons_of_mem _ h2)
    · simp [escChars, hc] at h
      rcases h with h | h
      · exact Or.inr (h ▸ List.mem_cons_self _ _)
      · rcases ih h with h2 | h2
        · exact Or.inl h2
        · exact Or.inr (List.mem_cons_of_mem _ h2)

/-- Characters of the rendered `", "`-joined column identifiers are
quotes, commas, spaces, or characters of the column names. -/
theorem mem_render_join {ch : Char} (cols : List String)
    (h : ch ∈ (renderStmt (sqlJoin (SqlAtom.raw ", ")
      (cols.map (fun c => [SqlAtom.ident c])))).data) :
    ch = '"' ∨ ch = ',' ∨ ch = ' ' ∨ ∃ c ∈ cols, ch ∈ c.data := by
  induction cols with
  | nil => cases h
  | cons c rest ih =>
    cases rest with
    | nil =>
      simp [sqlJoin, renderStmt, renderAtom, escapeIdent, String.data_append] at h
      rcases h with h | h | h
      · exact Or.inl h
      · rcases mem_escChars h with h2 | h2
        · exact Or.inl h2
        · exact Or.inr (Or.inr (Or.inr ⟨c, List.mem_cons_self _ _, h2⟩))
      · exact Or.inl h
    | cons d rest2 =>
      have h0 : ch ∈ (renderStmt ([SqlAtom.ident c] ++ SqlAtom.raw ", " ::
          sqlJoin (SqlAtom.raw ", ") ((d :: rest2).map (fun c => [SqlAtom.ident c])))).data := h
      rw [renderStmt_data_append] at h0
      rcases List.mem_append.mp h0 with h1 | h1
      · simp [renderStmt, renderAtom, escapeIdent, String.data_append] at h1
        rcases h1 with h1 | h1 | h1
        · exact Or.inl h1
        · rcases mem_escChars h1 with h2 | h2
          · exact Or.inl h2
          · exact Or.inr (Or.inr (Or.inr ⟨c, List.mem_cons_self _ _, h2⟩))
        · exact Or.inl h1
      · have h1b : ch ∈ (", ").data ++ (renderStmt (sqlJoin (SqlAtom.raw ", ")
            ((d :: rest2).map (fun c => [SqlAtom.ident c])))).data := by
          simpa [renderStmt, renderAtom, String.data_append] using h1
        rcases List.mem_append.mp h1b with h2 | h2
        · rcases List.mem_cons.mp h2 with h3 | h3
          · exact Or.inr (Or.inl h3)
          · rcases List.mem_cons.mp h3 with h4 | h4
            · exact Or.inr (Or.inr (Or.inl h4))
            · cases h4
        · rcases ih h2 with h3 | h3 | h3 | ⟨x, hx, hxm⟩
          · exact Or.inl h3
          · exact Or.inr (Or.inl h3)
          · exact Or.inr (Or.inr (Or.inl h3))
          · exact Or.inr (Or.inr (Or.inr ⟨x, List.mem_cons_of_mem _ hx, hxm⟩))

/-- C3 amended: a limit of a non-integer type fails with `TypeError`
(the code's `InvalidArgument`) and no statement is returned, but any
integer limit — including a negative one — is accepted and spliced
after `LIMIT` in the returned statement. -/
theorem select_limit_validation (t : String) (cols : List String) (ty : String) (i : Int) :
    query_get_data (PyVal.pystr t) (cols.map PyVal.pystr) (PyLimit.other ty) =
      Except.error (PyErr.typeError
        ("Variable limit must be an integer. Received limit: " ++ ty ++ ".")) ∧
    ∃ q, query_get_data (PyVal.pystr t) (cols.map PyVal.pystr) (PyLimit.int i) =
        Except.ok q ∧
      ∃ pre : List Char, (renderStmt q).data = pre ++ ("LIMIT " ++ toString i).data := by
  constructor
  · rfl
  · refine ⟨_, query_get_data_int t cols i, ?_⟩
    refine ⟨"SELECT ".data ++ ((renderStmt (sqlJoin (SqlAtom.raw ", ")
      (cols.map (fun c => [SqlAtom.ident c])))).data
      ++ (" FROM ".data ++ ('"' :: escChars t.data ++ ['"', ' ']))), ?_⟩
    rw [render_select_data]
    simp [String.data_append, List.append_assoc]

/-- C1 amended: for any table name and non-empty all-string column
list, `limit=None` yields a statement ending with `LIMIT  * ` (the
LIMIT clause is present, with the sentinel rendered as the string
`' * '`), and `limit=10` yields a statement ending with `LIMIT 10`;
when neither the table name nor any column name contains the letter
`L`, the suffix `LIMIT 10` occurs in the statement exactly once. -/
theorem select_limit_clause (t : String) (cols : List String) (hne : cols ≠ []) :
    (∃ q, query_get_data (PyVal.pystr t) (cols.map PyVal.pystr) PyLimit.none =
        Except.ok q ∧
      ∃ pre : List Char, (renderStmt q).data = pre ++ "LIMIT  * ".data) ∧
    (∃ q, query_get_data (PyVal.pystr t) (cols.map PyVal.pystr) (PyLimit.int 10) =
        Except.ok q ∧
      (∃ pre : List Char, (renderStmt q).data = pre ++ "LIMIT 10".data) ∧
      (('L' ∉ t.data ∧ ∀ c ∈ cols, 'L' ∉ c.data) →
        substrCount (renderStmt q) "LIMIT 10" = 1)) := by
  have h10 : toString (10 : Int) = "10" := rfl
  have hsplitNone : "LIMIT  * ".data = "LIMIT ".data ++ " * ".data := rfl
  have hsplit10 : "LIMIT ".data ++ "10".data = "LIMIT 10".data := rfl
  constructor
  · refine ⟨_, query_get_data_none t cols, ?_⟩
    refine ⟨"SELECT ".data ++ ((renderStmt (sqlJoin (SqlAtom.raw ", ")
      (cols.map (fun c => [SqlAtom.ident c])))).data
      ++ (" FROM ".data ++ ('"' :: escChars t.data ++ ['"', ' ']))), ?_⟩
    rw [render_select_data, hsplitNone]
    simp [List.append_assoc]
  · refine ⟨_, query_get_data_int t cols 10, ?_⟩
    constructor
    · refine ⟨"SELECT ".data ++ ((renderStmt (sqlJoin (SqlAtom.raw ", ")
        (cols.map (fun c => [SqlAtom.ident c])))).data
        ++ (" FROM ".data ++ ('"' :: escChars t.data ++ ['"', ' ']))), ?_⟩
      rw [render_select_data, h10, ← hsplit10]
      simp [List.append_assoc]
    · rintro ⟨ht, hc⟩
      have hJ : 'L' ∉ (renderStmt (sqlJoin (SqlAtom.raw ", ")
          (cols.map (fun c => [SqlAtom.ident c])))).data := by
        intro hmem
        rcases mem_render_join cols hmem with h | h | h | ⟨c, hcm, hch⟩
        · exact absurd h (by decide)
        · exact absurd h (by decide)
        · exact absurd h (by decide)
        · exact hc c hcm hch
      have hM : 'L' ∉ ((renderStmt (sqlJoin (SqlAtom.raw ", ")
          (cols.map (fun c => [SqlAtom.ident c])))).data
          ++ (" FROM ".data ++ ('"' :: escChars t.data ++ ['"', ' ']))) := by
        intro hmem
        rcases List.mem_append.mp hmem with h | h
        · exact hJ h
        · rcases List.mem_append.mp h with h1 | h1
          · exact absurd h1 (by decide)
          · rcases List.mem_append.mp h1 with h2 | h2
            · rcases List.mem_cons.mp h2 with h3 | h3
              · exact absurd h3 (by decide)
              · rcases mem_escChars h3 with h4 | h4
                · exact absurd h4 (by decide)
                · exact ht h4
            · exact absurd h2 (by decide)
      have harg : (renderStmt ([SqlAtom.raw "SELECT "]
          ++ sqlJoin (SqlAtom.raw ", ") (cols.map (fun c => [SqlAtom.ident c]))
          ++ [SqlAtom.raw " FROM ", SqlAtom.ident t, SqlAtom.raw " LIMIT ",
              SqlAtom.raw (toString (10 : Int))])).data
          = "SELECT ".data ++ (((renderStmt (sqlJoin (SqlAtom.raw ", ")
              (cols.map (fun c => [SqlAtom.ident c])))).data
            ++ (" FROM ".data ++ ('"' :: escChars t.data ++ ['"', ' '])))
            ++ "LIMIT 10".data) := by
        rw [render_select_data, h10, ← hsplit10]
        simp [List.append_assoc]
      show substrCount (renderStmt _) "LIMIT 10" = 1
      rw [substrCount, harg]
      exact countAux_middle _ hM

/-- Witness for C1 (amended) at table `t`, columns `a`, `b`. -/
theorem select_limit_clause_witness :
    ((["a", "b"] : List String) ≠ []) ∧
    ((∃ q, query_get_data (PyVal.pystr "t") ((["a", "b"] : List String).map PyVal.pystr)
        PyLimit.none = Except.ok q ∧
      ∃ pre : List Char, (renderStmt q).data = pre ++ "LIMIT  * ".data) ∧
    (∃ q, query_get_data (PyVal.pystr "t") ((["a", "b"] : List String).map PyVal.pystr)
        (PyLimit.int 10) = Except.ok q ∧
      (∃ pre : List Char, (renderStmt q).data = pre ++ "LIMIT 10".data) ∧
      (('L' ∉ "t".data ∧ ∀ c ∈ (["a", "b"] : List String), 'L' ∉ c.data) →
        substrCount (renderStmt q) "LIMIT 10" = 1))) :=
  ⟨by decide, select_limit_clause "t" ["a", "b"] (by decide)⟩
